import Mathlib

/-!
Shallow embedding of `cofounder_bot.py`, a polling automation script that
fetches founder profiles, sends connection requests, persists a cursor
(`last_profile_id`) and optionally posts a summary to a Discord webhook.

Modelling conventions:
* A Python dict-shaped profile is a structure of `Option String` fields
  (`none` = key absent). Unguarded `p["_id"]` indexing is `getId`, which
  fails with `PyErr.keyError` when the key is absent, mirroring `KeyError`.
* Exceptions are `Except PyErr`. `requests.RequestException` is
  `PyErr.requestExc msg`; `KeyError` is `PyErr.keyError key`; a JSON parse
  failure inside `resp.json()` is `PyErr.jsonDecodeError`.
* The outcome of each `send_connect` call inside `run_cycle` is given by an
  oracle `connectOk : String → Bool` (`true` = the POST succeeded, `false` =
  it raised `requests.RequestException`, which the loop body catches).
* The state file is abstracted by `ReadResult`: the file may be missing,
  unreadable (`IOError`), contain invalid JSON (`json.JSONDecodeError`), or
  parse to a JSON object whose `last_profile_id` field is the given value
  (`none` = field absent).
* Side effects of one cycle are collected in a `CycleOut` record: the list
  of profile ids for which a connect POST was issued, the `connected`
  accumulator, the `sent` counter, the value passed to `save_state`
  (if any), the content passed to `send_discord_webhook` (if any), the
  webhook HTTP POST actually performed (if any), and the returned cursor.
-/

namespace CofounderBot

/-- A fetched profile object. Source keys: `_id`, `firstName`, `lastName`;
`none` models an absent key. -/
structure Profile where
  idOpt : Option String
  firstName : Option String
  lastName : Option String
deriving DecidableEq, Repr

/-- Python exceptions that the script can raise. -/
inductive PyErr where
  | keyError (key : String)
  | requestExc (msg : String)
  | jsonDecodeError
deriving DecidableEq, Repr

/-- Unguarded dict indexing `p["_id"]`: raises `KeyError` when absent. -/
def getId (p : Profile) : Except PyErr String :=
  match p.idOpt with
  | some s => Except.ok s
  | none => Except.error (PyErr.keyError "_id")

/-- Result of trying to read and JSON-parse the state file. -/
inductive ReadResult where
  | missing
  | ioError
  | jsonError
  | parsed (lastProfileId : Option String)
deriving DecidableEq, Repr

/-- `load_state` (source lines 41-49): if the file exists, read and parse it
and return `data.get("last_profile_id", "")`; `json.JSONDecodeError` and
`IOError` are caught and fall through (`pass`) to `return ""`, as does a
missing file. -/
def load_state : ReadResult → String
  | ReadResult.missing => ""
  | ReadResult.ioError => ""
  | ReadResult.jsonError => ""
  | ReadResult.parsed v => v.getD ""

/-- `save_state` (source lines 52-57): writes
`{"last_profile_id": last_profile_id}` as JSON; afterwards the file parses
to an object whose `last_profile_id` field is the saved string. -/
def save_state (lastProfileId : String) : ReadResult :=
  ReadResult.parsed (some lastProfileId)

/-- Python string truthiness of `a or b` for strings: `a` if non-empty,
else `b`. -/
def pyOrString (a b : String) : String :=
  if a = "" then b else a

/-- Python `str.strip()`: remove leading and trailing whitespace. Stated
over the character list so that it reduces definitionally. -/
def pyStrip (s : String) : String :=
  String.mk (((s.data.dropWhile Char.isWhitespace).reverse.dropWhile
    Char.isWhitespace).reverse)

/-- `os.getenv("LAST_PROFILE_ID", "").strip()` from `load_env`
(source line 36). -/
def seedLastId (envVal : Option String) : String :=
  pyStrip (envVal.getD "")

/-- `last_profile_id = load_state() or env_last_id` from `main`
(source line 151). -/
def startupCursor (st : ReadResult) (envVal : Option String) : String :=
  pyOrString (load_state st) (seedLastId envVal)

/-- Python `a.get(k) or b.get(k2) or c` chain where a falsy (`None` or empty)
lookup falls through. -/
def pyOrStr (a : Option String) (b : String) : String :=
  match a with
  | some s => if s = "" then b else s
  | none => b

/-- A JSON body as far as `send_connect` inspects it: the `message` and
`error` fields when it is an object (`none` = absent), and its Python
`str(...)` rendering. -/
structure ErrBody where
  message : Option String
  error : Option String
  reprStr : String
deriving DecidableEq, Repr

/-- The parsed form of the empty structure `{}` returned when the success
body is absent. -/
def emptyJson : ErrBody := ⟨none, none, "\x7b\x7d"⟩

/-- An HTTP response as far as `send_connect` inspects it. `jsonBody` is the
result of `resp.json()` (`none` = the body is not parseable JSON); `text` is
`resp.text`, and `resp.content` is truthy exactly when `text` is non-empty. -/
structure HttpResp where
  statusCode : Nat
  reason : String
  jsonBody : Option ErrBody
  text : String
deriving DecidableEq, Repr

/-- `resp.ok` in requests: status code below 400. -/
def HttpResp.ok (r : HttpResp) : Bool := r.statusCode < 400

/-- `send_connect` (source lines 71-88) applied to the response it got back:
on a non-ok status, raise `requests.RequestException` with
`f"{resp.status_code} {resp.reason}: {err_msg}"` where `err_msg` is
`err_body.get("message") or err_body.get("error") or str(err_body)` when the
body parses as JSON, else `resp.text or resp.reason`; on an ok status,
return `resp.json() if resp.content else {}` — note `resp.json()` raises a
JSON decode error when the non-empty body is not parseable JSON. -/
def send_connect (r : HttpResp) : Except PyErr ErrBody :=
  if r.ok then
    if r.text = "" then
      Except.ok emptyJson
    else
      match r.jsonBody with
      | some body => Except.ok body
      | none => Except.error PyErr.jsonDecodeError
  else
    let errMsg :=
      match r.jsonBody with
      | some body => pyOrStr body.message (pyOrStr body.error body.reprStr)
      | none => pyOrString r.text r.reason
    Except.error (PyErr.requestExc
      (toString r.statusCode ++ " " ++ r.reason ++ ": " ++ errMsg))

/-- Modelled from the spec (§4.4): the best-effort extracted error message —
the JSON error body's `message`, else its `error`, else its string
rendering, falling back to raw text or status reason when the body is not
parseable JSON. Stated separately from `send_connect` to compare the spec's
description with the code. -/
def bestEffortErrMsg (r : HttpResp) : String :=
  match r.jsonBody with
  | some body => pyOrStr body.message (pyOrStr body.error body.reprStr)
  | none => pyOrString r.text r.reason

/-- `f"{first} {last}".strip() or pid` (source lines 125 and 142). -/
def displayName (firstName lastName pid : String) : String :=
  pyOrString (pyStrip (firstName ++ " " ++ lastName)) pid

/-- The Discord summary string
`f"{sent} connected: {', '.join(names)}"` (source lines 142-143). -/
def buildDiscordMsg (sent : Nat) (connected : List (String × String × String)) : String :=
  let names := connected.map (fun t =>
    match t with
    | (pid, firstName, lastName) => displayName firstName lastName pid)
  toString sent ++ " connected: " ++ String.intercalate ", " names

/-- `send_discord_webhook` (source lines 91-104): returns without any HTTP
request when the url is empty, otherwise POSTs the content to the url
(failures are caught and logged inside, so the call never raises). The
result records the POST performed, if any. -/
def send_discord_webhook (webhookUrl content : String) : Option (String × String) :=
  if webhookUrl = "" then none else some (webhookUrl, content)

/-- Observable effects and result of one `run_cycle` call that did not raise. -/
structure CycleOut where
  attempted : List String
  connected : List (String × String × String)
  sent : Nat
  saved : Option String
  webhookCall : Option String
  webhookPost : Option (String × String)
  ret : String
deriving DecidableEq, Repr

/-- The `for p in profiles` loop of `run_cycle` (source lines 120-133):
`pid = p["_id"]` (may raise `KeyError`, which propagates); `break` when
`pid == last_profile_id`; otherwise `send_connect` is attempted — on success
`sent` is incremented and `(pid, firstName, lastName)` appended to
`connected`, on `requests.RequestException` the failure is logged and the
loop continues. Returns `(sent, connected, attempted)` where `attempted`
lists the ids for which a connect POST was issued, in order. -/
def iterLoop (connectOk : String → Bool) (lastProfileId : String) :
    List Profile → Except PyErr (Nat × List (String × String × String) × List String)
  | [] => Except.ok (0, [], [])
  | p :: rest =>
    match getId p with
    | Except.error e => Except.error e
    | Except.ok pid =>
      if pid = lastProfileId then
        Except.ok (0, [], [])
      else if connectOk pid then
        match iterLoop connectOk lastProfileId rest with
        | Except.error e => Except.error e
        | Except.ok (sent, connected, attempted) =>
          Except.ok (sent + 1,
            (pid, p.firstName.getD "", p.lastName.getD "") :: connected,
            pid :: attempted)
      else
        match iterLoop connectOk lastProfileId rest with
        | Except.error e => Except.error e
        | Except.ok (sent, connected, attempted) =>
          Except.ok (sent, connected, pid :: attempted)

/-- `run_cycle` (source lines 107-146) applied to the profile list the fetch
returned: on an empty list, log and return `last_profile_id` unchanged with
no effect; otherwise `first_id = profiles[0]["_id"]`, run the connect loop,
`save_state(first_id)`, call `send_discord_webhook` only when `sent > 0`,
and return `first_id`. -/
def runCycle (connectOk : String → Bool) (profiles : List Profile)
    (lastProfileId : String) (webhookUrl : String) : Except PyErr CycleOut :=
  match profiles with
  | [] => Except.ok ⟨[], [], 0, none, none, none, lastProfileId⟩
  | p0 :: rest =>
    match getId p0 with
    | Except.error e => Except.error e
    | Except.ok firstId =>
      match iterLoop connectOk lastProfileId (p0 :: rest) with
      | Except.error e => Except.error e
      | Except.ok (sent, connected, attempted) =>
        let newLast := firstId
        let webhookCall :=
          if sent > 0 then some (buildDiscordMsg sent connected) else none
        let webhookPost :=
          match webhookCall with
          | some content => send_discord_webhook webhookUrl content
          | none => none
        Except.ok ⟨attempted, connected, sent, some newLast,
          webhookCall, webhookPost, newLast⟩

/-- Outcome of one iteration of the `while True` loop in `main`
(source lines 154-162). -/
inductive LoopOutcome where
  | next (cursor : String)
  | crash (e : PyErr)
deriving DecidableEq, Repr

/-- Which exceptions the `except requests.RequestException` handler in
`main` catches. `KeyError` is not a `requests.RequestException`;
`requests.exceptions.JSONDecodeError` subclasses `RequestException`. -/
def loopCatches : PyErr → Bool
  | PyErr.requestExc _ => true
  | PyErr.jsonDecodeError => true
  | PyErr.keyError _ => false

/-- One iteration of the outer loop of `main`: on a normal cycle the loop
continues with the returned cursor; on a caught request error it logs and
continues with the cursor unchanged; any other exception propagates and
terminates the process. -/
def mainStep (cursor : String) (res : Except PyErr CycleOut) : LoopOutcome :=
  match res with
  | Except.ok out => LoopOutcome.next out.ret
  | Except.error e =>
    if loopCatches e then LoopOutcome.next cursor else LoopOutcome.crash e

/-- Sample profiles for concrete evaluations. -/
def pA : Profile := ⟨some "idA", some "Alice", some "Ng"⟩

def pB : Profile := ⟨some "idB", some "Bob", some "Ode"⟩

def pC : Profile := ⟨some "idC", some "Cara", some "Pim"⟩

/-- A profile object lacking the `_id` key. -/
def pNoId : Profile := ⟨none, some "Ada", some "Lovelace"⟩

/-- Helper: on a non-empty fetch, a `run_cycle` that returns normally
returns the first profile's id and persists exactly that value. -/
theorem runCycle_cons_ok (ck : String → Bool) (p0 : Profile) (rest : List Profile)
    (cursor url : String) (out : CycleOut)
    (h : runCycle ck (p0 :: rest) cursor url = Except.ok out) :
    p0.idOpt = some out.ret ∧ out.saved = some out.ret := by
  unfold runCycle at h
  cases hid : p0.idOpt with
  | none => simp [getId, hid] at h
  | some fid =>
    simp only [getId, hid] at h
    cases hit : iterLoop ck cursor (p0 :: rest) with
    | error e => simp [hit] at h
    | ok tr =>
      obtain ⟨sent, connected, attempted⟩ := tr
      rw [hit] at h
      simp only [Except.ok.injEq] at h
      subst h
      exact ⟨rfl, rfl⟩

/-- Helper: evaluation of `run_cycle` on a non-empty fetch, given the id of
the first profile and the result of the connect loop. -/
theorem runCycle_eq (ck : String → Bool) (p0 : Profile) (rest : List Profile)
    (cursor url fid : String) (sent : Nat)
    (connected : List (String × String × String)) (attempted : List String)
    (hid : p0.idOpt = some fid)
    (hit : iterLoop ck cursor (p0 :: rest) = Except.ok (sent, connected, attempted)) :
    runCycle ck (p0 :: rest) cursor url = Except.ok
      ⟨attempted, connected, sent, some fid,
        (if sent > 0 then some (buildDiscordMsg sent connected) else none),
        (match (if sent > 0 then some (buildDiscordMsg sent connected) else none) with
          | some content => send_discord_webhook url content
          | none => none), fid⟩ := by
  simp only [runCycle, getId, hid, hit]

/-- C1: for every cycle in which the fetch returns a non-empty profile list,
the cursor passed to `save_state` and the value `run_cycle` returns both
equal the `_id` of the first fetched profile, regardless of the outcome of
the individual connect attempts (the connect oracle `ck` is arbitrary), and
reloading the persisted state yields that same id. -/
theorem c1_persisted_cursor_is_first_id (ck : String → Bool) (p0 : Profile)
    (rest : List Profile) (cursor url : String) (out : CycleOut)
    (h : runCycle ck (p0 :: rest) cursor url = Except.ok out) :
    out.saved = some out.ret ∧ p0.idOpt = some out.ret ∧
      load_state (save_state out.ret) = out.ret := by
  obtain ⟨hid, hsaved⟩ := runCycle_cons_ok ck p0 rest cursor url out h
  exact ⟨hsaved, hid, rfl⟩

/-- Concrete run of one cycle over `[pA]` where every connect succeeds. -/
def outA : CycleOut :=
  ⟨["idA"], [("idA", "Alice", "Ng")], 1, some "idA",
    some "1 connected: Alice Ng", none, "idA"⟩

/-- C1 witness: a concrete cycle over `[pA]` with empty prior cursor. -/
theorem c1_persisted_cursor_is_first_id_witness :
    outA.saved = some outA.ret ∧ pA.idOpt = some outA.ret ∧
      load_state (save_state outA.ret) = outA.ret :=
  c1_persisted_cursor_is_first_id (fun _ => true) pA [] "" "" outA rfl

/-- C4: for a cycle in which the fetch returns an empty profile list, no
connect request is issued, no webhook call or post occurs, `save_state` is
not called, and `run_cycle` returns the cursor it was given. -/
theorem c4_empty_fetch_no_effects (ck : String → Bool) (cursor url : String) :
    runCycle ck [] cursor url =
      Except.ok ⟨[], [], 0, none, none, none, cursor⟩ := rfl

/-- C3: a state file that cannot be read or whose contents are not valid
JSON makes `load_state` behave exactly as for a missing file: it returns
the empty string with no error, so the startup cursor falls back to the
configured seed. -/
theorem c3_corrupt_state_like_missing :
    load_state ReadResult.jsonError = load_state ReadResult.missing ∧
    load_state ReadResult.ioError = load_state ReadResult.missing ∧
    load_state ReadResult.missing = "" ∧
    (∀ envVal : Option String,
      startupCursor ReadResult.jsonError envVal = seedLastId envVal ∧
      startupCursor ReadResult.ioError envVal = seedLastId envVal) := by
  refine ⟨rfl, rfl, rfl, fun envVal => ⟨rfl, rfl⟩⟩

/-- C7: the effective cursor at startup is the state-store value when that
value is non-empty, otherwise the configured seed, otherwise (seed variable
absent) the empty string; a non-empty persisted cursor always wins over the
seed. -/
theorem c7_startup_cursor_preference (st : ReadResult) (envVal : Option String) :
    (load_state st ≠ "" → startupCursor st envVal = load_state st) ∧
    (load_state st = "" → startupCursor st envVal = seedLastId envVal) ∧
    (load_state st = "" → envVal = none → startupCursor st envVal = "") := by
  refine ⟨fun h => ?_, fun h => ?_, fun h he => ?_⟩
  · simp [startupCursor, pyOrString, h]
  · simp [startupCursor, pyOrString, h]
  · subst he
    have ht : seedLastId (none : Option String) = "" := by decide
    simp [startupCursor, pyOrString, h, ht]

/-- C7 witness: a persisted cursor `"saved"` is preferred to seed `"seed"`,
and with an empty state the seed is used. -/
theorem c7_startup_cursor_preference_witness :
    startupCursor (ReadResult.parsed (some "saved")) (some "seed") = "saved" ∧
    startupCursor ReadResult.missing (some "seed") = "seed" :=
  ⟨(c7_startup_cursor_preference (ReadResult.parsed (some "saved")) (some "seed")).1
      (by decide),
    ((c7_startup_cursor_preference ReadResult.missing (some "seed")).2.1 rfl).trans
      (by decide)⟩

/-- Decidable equality for `Except`, so concrete runs can be checked by
`decide`. -/
instance {ε α : Type} [DecidableEq ε] [DecidableEq α] : DecidableEq (Except ε α) :=
  fun a b =>
    match a, b with
    | Except.ok x, Except.ok y =>
      if h : x = y then isTrue (by rw [h])
      else isFalse (by intro hc; cases hc; exact h rfl)
    | Except.error x, Except.error y =>
      if h : x = y then isTrue (by rw [h])
      else isFalse (by intro hc; cases hc; exact h rfl)
    | Except.ok _, Except.error _ => isFalse (by intro hc; cases hc)
    | Except.error _, Except.ok _ => isFalse (by intro hc; cases hc)

/-- C2: for a fetched list `[A, B, C]` in that order and a current cursor
equal to B's id (with A a different profile id), `run_cycle` issues a
connect request exactly for A — never for B or C — and the persisted cursor
and return value are A's id, whatever the outcome of the attempt. -/
theorem c2_stops_at_cursor_match (ck : String → Bool) (A B C : Profile)
    (a b c url : String)
    (hA : A.idOpt = some a) (hB : B.idOpt = some b) (hC : C.idOpt = some c)
    (hab : a ≠ b) :
    ∃ out, runCycle ck [A, B, C] b url = Except.ok out ∧
      out.attempted = [a] ∧ out.saved = some a ∧ out.ret = a := by
  cases hck : ck a with
  | true =>
    have hit : iterLoop ck b [A, B, C] =
        Except.ok (1, [(a, A.firstName.getD "", A.lastName.getD "")], [a]) := by
      unfold iterLoop
      unfold iterLoop
      simp [getId, hA, hB, hab, hck]
    exact ⟨_, runCycle_eq ck A [B, C] b url a 1 _ _ hA hit, rfl, rfl, rfl⟩
  | false =>
    have hit : iterLoop ck b [A, B, C] = Except.ok (0, [], [a]) := by
      unfold iterLoop
      unfold iterLoop
      simp [getId, hA, hB, hab, hck]
    exact ⟨_, runCycle_eq ck A [B, C] b url a 0 _ _ hA hit, rfl, rfl, rfl⟩

/-- C2 witness: concrete profiles `[pA, pB, pC]` with cursor `"idB"`. -/
theorem c2_stops_at_cursor_match_witness :
    ∃ out, runCycle (fun _ => true) [pA, pB, pC] "idB" "" = Except.ok out ∧
      out.attempted = ["idA"] ∧ out.saved = some "idA" ∧ out.ret = "idA" :=
  c2_stops_at_cursor_match (fun _ => true) pA pB pC "idA" "idB" "idC" ""
    rfl rfl rfl (by decide)

/-- C5: for a fetched list `[A, B]` and a cursor matching no id in the
list, both profiles receive a connect attempt, in order, and the persisted
cursor and the returned value become A's id. -/
theorem c5_full_page_processed (ck : String → Bool) (A B : Profile)
    (a b cursor url : String)
    (hA : A.idOpt = some a) (hB : B.idOpt = some b)
    (ha : a ≠ cursor) (hb : b ≠ cursor) :
    ∃ out, runCycle ck [A, B] cursor url = Except.ok out ∧
      out.attempted = [a, b] ∧ out.saved = some a ∧ out.ret = a := by
  have hunfold : ∀ sent connected,
      iterLoop ck cursor [A, B] = Except.ok (sent, connected, [a, b]) →
      ∃ out, runCycle ck [A, B] cursor url = Except.ok out ∧
        out.attempted = [a, b] ∧ out.saved = some a ∧ out.ret = a :=
    fun sent connected hit =>
      ⟨_, runCycle_eq ck A [B] cursor url a sent connected [a, b] hA hit,
        rfl, rfl, rfl⟩
  cases hcka : ck a with
  | true =>
    cases hckb : ck b with
    | true =>
      refine hunfold 2 [(a, A.firstName.getD "", A.lastName.getD ""),
        (b, B.firstName.getD "", B.lastName.getD "")] ?_
      unfold iterLoop
      unfold iterLoop
      unfold iterLoop
      simp [getId, hA, hB, ha, hb, hcka, hckb]
    | false =>
      refine hunfold 1 [(a, A.firstName.getD "", A.lastName.getD "")] ?_
      unfold iterLoop
      unfold iterLoop
      unfold iterLoop
      simp [getId, hA, hB, ha, hb, hcka, hckb]
  | false =>
    cases hckb : ck b with
    | true =>
      refine hunfold 1 [(b, B.firstName.getD "", B.lastName.getD "")] ?_
      unfold iterLoop
      unfold iterLoop
      unfold iterLoop
      simp [getId, hA, hB, ha, hb, hcka, hckb]
    | false =>
      refine hunfold 0 [] ?_
      unfold iterLoop
      unfold iterLoop
      unfold iterLoop
      simp [getId, hA, hB, ha, hb, hcka, hckb]

/-- C5 witness: concrete profiles `[pA, pB]` with a cursor outside the
list. -/
theorem c5_full_page_processed_witness :
    ∃ out, runCycle (fun _ => true) [pA, pB] "idZ" "" = Except.ok out ∧
      out.attempted = ["idA", "idB"] ∧ out.saved = some "idA" ∧
      out.ret = "idA" :=
  c5_full_page_processed (fun _ => true) pA pB "idA" "idB" "idZ" ""
    rfl rfl (by decide) (by decide)

/-- C6: whenever a cycle completes with zero successful connects — whether
every attempt failed or the iteration stopped before any attempt —
`send_discord_webhook` is not called and no webhook POST occurs, even when
a webhook URL is configured. -/
theorem c6_no_webhook_without_success (ck : String → Bool)
    (profiles : List Profile) (cursor url : String) (out : CycleOut)
    (h : runCycle ck profiles cursor url = Except.ok out)
    (hs : out.sent = 0) :
    out.webhookCall = none ∧ out.webhookPost = none := by
  cases profiles with
  | nil =>
    unfold runCycle at h
    simp only [Except.ok.injEq] at h
    subst h
    exact ⟨rfl, rfl⟩
  | cons p0 rest =>
    unfold runCycle at h
    cases hid : p0.idOpt with
    | none => simp [getId, hid] at h
    | some fid =>
      simp only [getId, hid] at h
      cases hit : iterLoop ck cursor (p0 :: rest) with
      | error e => simp [hit] at h
      | ok tr =>
        obtain ⟨sent, connected, attempted⟩ := tr
        rw [hit] at h
        simp only [Except.ok.injEq] at h
        subst h
        have hsent : sent = 0 := hs
        subst hsent
        exact ⟨rfl, rfl⟩

/-- Concrete run for the C6 witness: every connect attempt on `[pA]` fails,
with a webhook URL configured. -/
def outFail : CycleOut :=
  ⟨["idA"], [], 0, some "idA", none, none, "idA"⟩

/-- C6 witness: a cycle over `[pA]` where the only attempt fails and a
webhook URL is configured sends nothing. -/
theorem c6_no_webhook_without_success_witness :
    outFail.webhookCall = none ∧ outFail.webhookPost = none :=
  c6_no_webhook_without_success (fun _ => false) [pA] ""
    "https://discord.example/hook" outFail (by decide) rfl

/-- C10: cycle idempotence on the cursor — rerunning `run_cycle` on the
same fetched list with the cursor produced by a completed first run issues
zero connect requests and returns the same cursor again, for any outcome
oracle of the second run. -/
theorem c10_second_cycle_idempotent (ck ck2 : String → Bool)
    (profiles : List Profile) (cursor url url2 : String) (out : CycleOut)
    (h : runCycle ck profiles cursor url = Except.ok out) :
    ∃ out2, runCycle ck2 profiles out.ret url2 = Except.ok out2 ∧
      out2.attempted = [] ∧ out2.sent = 0 ∧ out2.ret = out.ret := by
  cases profiles with
  | nil => exact ⟨_, rfl, rfl, rfl, rfl⟩
  | cons p0 rest =>
    obtain ⟨hid, hsaved⟩ := runCycle_cons_ok ck p0 rest cursor url out h
    have hit : iterLoop ck2 out.ret (p0 :: rest) = Except.ok (0, [], []) := by
      unfold iterLoop
      simp [getId, hid]
    exact ⟨_, runCycle_eq ck2 p0 rest out.ret url2 out.ret 0 [] [] hid hit,
      rfl, rfl, rfl⟩

/-- Concrete first-cycle result over `[pA, pB]` from an empty cursor with
every connect succeeding, for the C10 witness. -/
def outAB : CycleOut :=
  ⟨["idA", "idB"], [("idA", "Alice", "Ng"), ("idB", "Bob", "Ode")], 2,
    some "idA", some "2 connected: Alice Ng, Bob Ode", none, "idA"⟩

/-- C10 witness: after a cycle over `[pA, pB]` from an empty cursor, a
second cycle over the same list stops at once and keeps the cursor. -/
theorem c10_second_cycle_idempotent_witness :
    ∃ out2, runCycle (fun _ => false) [pA, pB] outAB.ret "" = Except.ok out2 ∧
      out2.attempted = [] ∧ out2.sent = 0 ∧ out2.ret = outAB.ret :=
  c10_second_cycle_idempotent (fun _ => true) (fun _ => false) [pA, pB]
    "" "" "" outAB (by decide)

/-- C8 amended: `send_connect` succeeds exactly when the status is a
success and the body is absent or parseable; on a non-success status it
raises the combined `status reason: best-effort message` request error; on
a success status it returns the parsed body, or the empty structure when
the body is absent, but raises a JSON decode error when a non-empty body is
not parseable JSON. -/
theorem c8_send_connect_amended (r : HttpResp) :
    ((∃ v, send_connect r = Except.ok v) ↔
        (r.ok = true ∧ (r.text = "" ∨ r.jsonBody ≠ none))) ∧
    (r.ok = false → send_connect r = Except.error (PyErr.requestExc
      (toString r.statusCode ++ " " ++ r.reason ++ ": " ++ bestEffortErrMsg r))) ∧
    (r.ok = true → r.text = "" → send_connect r = Except.ok emptyJson) ∧
    (∀ b, r.ok = true → r.jsonBody = some b → r.text ≠ "" →
      send_connect r = Except.ok b) ∧
    (r.ok = true → r.jsonBody = none → r.text ≠ "" →
      send_connect r = Except.error PyErr.jsonDecodeError) := by
  unfold send_connect bestEffortErrMsg
  cases hok : r.ok <;> cases htext : Decidable.em (r.text = "") <;>
    cases hbody : r.jsonBody <;>
    simp_all

/-- A concrete failing connect response for the C8 witness. -/
def resp404 : HttpResp :=
  ⟨404, "Not Found", some ⟨some "no such profile", none, "errbody"⟩, "raw"⟩

/-- C8 witness: the 404 response yields the combined error message. -/
theorem c8_send_connect_amended_witness :
    send_connect resp404 =
      Except.error (PyErr.requestExc "404 Not Found: no such profile") :=
  ((c8_send_connect_amended resp404).2.1 rfl).trans (by decide)

/-- A success-status response whose non-empty body is not parseable JSON. -/
def okBadBody : HttpResp := ⟨200, "OK", none, "not json"⟩

/-- C8 counterexample: a success-status (200) response with a non-empty
unparseable body still makes `send_connect` raise (`resp.json()` fails), so
`send_connect` does not raise only on non-success statuses. -/
theorem c8_counterexample :
    okBadBody.ok = true ∧
      send_connect okBadBody = Except.error PyErr.jsonDecodeError :=
  ⟨rfl, rfl⟩

/-- C9: a fetched first profile lacking the `_id` key makes `run_cycle`
raise `KeyError`, which is not a request-layer error: the outer loop's
handler does not catch it, so the process crashes instead of logging and
continuing. -/
theorem c9_missing_id_crashes :
    runCycle (fun _ => true) [pNoId] "" "" =
      Except.error (PyErr.keyError "_id") ∧
    loopCatches (PyErr.keyError "_id") = false ∧
    mainStep "" (runCycle (fun _ => true) [pNoId] "" "") =
      LoopOutcome.crash (PyErr.keyError "_id") :=
  ⟨rfl, rfl, rfl⟩

end CofounderBot
